import Mathlib

/-!
Shallow embedding of `src/index.ts` of `@omochikun/gamification-level`.

Modelling conventions:
* JavaScript numbers are modelled as real numbers (`ℝ`); `Math.floor` is
  `Int.floor` (returning `ℤ`, since the result is always integral) and
  `Math.pow` is `Real.rpow`.  Real division is Lean's total division
  (`y / 0 = 0`), so IEEE special values (`Infinity`, `NaN`) arising from a
  zero denominator are outside this model; no theorem below rests on a
  division by zero.
* A TypeScript call site `f(x)` that omits the options argument is the
  Lean call `f x {}`: the structure defaults of `LevelCalculationOptions`
  play the role of the `{ ...DEFAULT_OPTIONS, ...options }` merge, so an
  options value here is always the already-merged (resolved) record.  Per
  the data model, `maxLevel` is an integer.
* `customRanks || DEFAULT_RANKS` falls back to the default table exactly
  when `customRanks` is `undefined` (an array, even `[]`, is truthy), so
  the rank-table argument is modelled as `Option (List RankDefinition)`
  with `none` for an omitted/undefined argument.
-/

/-- `interface LevelCalculationOptions` merged over `DEFAULT_OPTIONS`
(`baseXP: 100, exponent: 1.5, maxLevel: 100`). -/
structure LevelCalculationOptions where
  baseXP : ℝ := 100
  exponent : ℝ := 1.5
  maxLevel : ℤ := 100

/-- `DEFAULT_OPTIONS` from the source. -/
def DEFAULT_OPTIONS : LevelCalculationOptions := {}

/-- `interface RankDefinition`. -/
structure RankDefinition where
  rank : String
  minLevel : ℝ
  maxLevel : ℝ
  title : String

/-- `DEFAULT_RANKS` from the source. -/
def DEFAULT_RANKS : List RankDefinition :=
  [⟨"trainee", 1, 10, "Trainee"⟩,
   ⟨"junior", 11, 25, "Junior"⟩,
   ⟨"intermediate", 26, 50, "Intermediate"⟩,
   ⟨"senior", 51, 75, "Senior"⟩,
   ⟨"expert", 76, 90, "Expert"⟩,
   ⟨"master", 91, 100, "Master"⟩]

/-- `getRequiredXP(level, options)`:
`if (level < 1) return 0; if (level > opts.maxLevel) level = opts.maxLevel;
return Math.floor(opts.baseXP * Math.pow(level, opts.exponent));` -/
noncomputable def getRequiredXP (level : ℝ)
    (opts : LevelCalculationOptions := {}) : ℤ :=
  if level < 1 then 0
  else
    let level := if level > (opts.maxLevel : ℝ) then (opts.maxLevel : ℝ) else level
    ⌊opts.baseXP * level ^ opts.exponent⌋

/-- The `while (low <= high)` binary-search loop of `calculateLevel`,
with `mid = Math.floor((low + high) / 2)` (Lean's `ℤ` division is floor
division here, the operands being nonnegative at every call site). -/
noncomputable def calcLoop (totalXP : ℝ) (opts : LevelCalculationOptions)
    (low high currentLevel : ℤ) : ℤ :=
  if low ≤ high then
    let mid := (low + high) / 2
    if (getRequiredXP (mid : ℝ) opts : ℝ) ≤ totalXP then
      calcLoop totalXP opts (mid + 1) high mid
    else
      calcLoop totalXP opts low (mid - 1) currentLevel
  else currentLevel
termination_by (high + 1 - low).toNat
decreasing_by
  all_goals omega

/-- `calculateLevel(totalXP, options)`: `if (totalXP < 0) return 1;` then
the binary search from `low = 1`, `high = opts.maxLevel`, `currentLevel = 1`. -/
noncomputable def calculateLevel (totalXP : ℝ)
    (opts : LevelCalculationOptions := {}) : ℤ :=
  if totalXP < 0 then 1
  else calcLoop totalXP opts 1 opts.maxLevel 1

/-- `getXPProgress(currentXP, options)`.  With a resolved options record and
an integral `maxLevel ≠ 0`, the source's `options.maxLevel || DEFAULT_OPTIONS.maxLevel`
is `opts.maxLevel`. -/
noncomputable def getXPProgress (currentXP : ℝ)
    (opts : LevelCalculationOptions := {}) : ℝ :=
  let currentLevel := calculateLevel currentXP opts
  let currentLevelXP := getRequiredXP (currentLevel : ℝ) opts
  let nextLevelXP := getRequiredXP ((currentLevel : ℝ) + 1) opts
  if currentLevel ≥ opts.maxLevel then 100
  else
    let xpInCurrentLevel := currentXP - (currentLevelXP : ℝ)
    let xpNeededForNext := (nextLevelXP : ℝ) - (currentLevelXP : ℝ)
    min 100 (max 0 (xpInCurrentLevel / xpNeededForNext * 100))

/-- `getXPToNextLevel(currentXP, options)`:
`Math.max(0, nextLevelXP - currentXP)`. -/
noncomputable def getXPToNextLevel (currentXP : ℝ)
    (opts : LevelCalculationOptions := {}) : ℝ :=
  let currentLevel := calculateLevel currentXP opts
  let nextLevelXP := getRequiredXP ((currentLevel : ℝ) + 1) opts
  max 0 ((nextLevelXP : ℝ) - currentXP)

/-- `ranks.find(r => level >= r.minLevel && level <= r.maxLevel) || null`:
first entry of the list whose range contains `level`. -/
noncomputable def findRank (level : ℝ) :
    List RankDefinition → Option RankDefinition
  | [] => none
  | r :: rest =>
      if r.minLevel ≤ level ∧ level ≤ r.maxLevel then some r
      else findRank level rest

/-- `getRank(level, customRanks)`: `const ranks = customRanks || DEFAULT_RANKS;`
(`none` models an omitted/`undefined` argument; any supplied array — even the
empty one — is truthy in JavaScript and is used as-is). -/
noncomputable def getRank (level : ℝ)
    (customRanks : Option (List RankDefinition) := none) : Option RankDefinition :=
  let ranks := customRanks.getD DEFAULT_RANKS
  findRank level ranks

/-- `getRankTitle(level, customRanks)`: `rank?.title || ''` (for a matched
rank with an empty title, JavaScript's `||` also yields `''`, so `getD`
coincides with it). -/
noncomputable def getRankTitle (level : ℝ)
    (customRanks : Option (List RankDefinition) := none) : String :=
  match getRank level customRanks with
  | some r => r.title
  | none => ""

/-- Fuelled variant of the binary-search loop, used to state termination:
`none` means the fuel ran out. -/
noncomputable def calcLoopFuel (fuel : ℕ) (totalXP : ℝ)
    (opts : LevelCalculationOptions) (low high currentLevel : ℤ) : Option ℤ :=
  match fuel with
  | 0 => none
  | Nat.succ f =>
      if low ≤ high then
        let mid := (low + high) / 2
        if (getRequiredXP (mid : ℝ) opts : ℝ) ≤ totalXP then
          calcLoopFuel f totalXP opts (mid + 1) high mid
        else
          calcLoopFuel f totalXP opts low (mid - 1) currentLevel
      else some currentLevel

/-! ## Helper lemmas about `getRequiredXP` -/

/-- The `level < 1` guard of `getRequiredXP`. -/
lemma getRequiredXP_of_lt_one (opts : LevelCalculationOptions) {level : ℝ}
    (h : level < 1) : getRequiredXP level opts = 0 := by
  unfold getRequiredXP
  rw [if_pos h]

/-- The clamping branch of `getRequiredXP` for levels above the cap. -/
lemma getRequiredXP_of_gt_max (opts : LevelCalculationOptions) {level : ℝ}
    (h1 : ¬ level < 1) (h2 : level > (opts.maxLevel : ℝ)) :
    getRequiredXP level opts = ⌊opts.baseXP * (opts.maxLevel : ℝ) ^ opts.exponent⌋ := by
  unfold getRequiredXP
  rw [if_neg h1]
  simp only [if_pos h2]

/-- The in-range branch of `getRequiredXP`. -/
lemma getRequiredXP_of_le_max (opts : LevelCalculationOptions) {level : ℝ}
    (h1 : ¬ level < 1) (h2 : ¬ level > (opts.maxLevel : ℝ)) :
    getRequiredXP level opts = ⌊opts.baseXP * level ^ opts.exponent⌋ := by
  unfold getRequiredXP
  rw [if_neg h1]
  simp only [if_neg h2]

/-- Monotonicity of the required-XP curve in the level, for a positive base
and non-negative exponent, below the cap. -/
lemma getRequiredXP_mono (opts : LevelCalculationOptions)
    (hb : 0 < opts.baseXP) (he : 0 ≤ opts.exponent) {a b : ℝ}
    (hab : a ≤ b) (hbm : b ≤ (opts.maxLevel : ℝ)) :
    getRequiredXP a opts ≤ getRequiredXP b opts := by
  by_cases ha1 : a < 1
  · rw [getRequiredXP_of_lt_one opts ha1]
    by_cases hb1 : b < 1
    · rw [getRequiredXP_of_lt_one opts hb1]
    · rw [getRequiredXP_of_le_max opts hb1 (not_lt.mpr hbm)]
      have hb1' : (1 : ℝ) ≤ b := not_lt.mp hb1
      have hpos : (0 : ℝ) ≤ opts.baseXP * b ^ opts.exponent := by
        have := Real.rpow_nonneg (by linarith : (0:ℝ) ≤ b) opts.exponent
        positivity
      exact Int.floor_nonneg.mpr hpos
  · have hb1 : ¬ b < 1 := by intro h; exact ha1 (lt_of_le_of_lt hab h)
    rw [getRequiredXP_of_le_max opts ha1 (not_lt.mpr (hab.trans hbm)),
        getRequiredXP_of_le_max opts hb1 (not_lt.mpr hbm)]
    apply Int.floor_le_floor
    have ha0 : (0 : ℝ) ≤ a := by linarith [not_lt.mp ha1]
    exact mul_le_mul_of_nonneg_left (Real.rpow_le_rpow ha0 hab he) hb.le

/-- Integer-level version of `getRequiredXP_mono`. -/
lemma getRequiredXP_monoZ (opts : LevelCalculationOptions)
    (hb : 0 < opts.baseXP) (he : 0 ≤ opts.exponent) :
    ∀ a b : ℤ, 1 ≤ a → a ≤ b → b ≤ opts.maxLevel →
      getRequiredXP (a : ℝ) opts ≤ getRequiredXP (b : ℝ) opts := by
  intro a b _ h2 h3
  exact getRequiredXP_mono opts hb he (by exact_mod_cast h2) (by exact_mod_cast h3)

/-! ## Stepping lemmas for the binary-search loop -/

lemma calcLoop_exit (x : ℝ) (opts : LevelCalculationOptions) (low high cur : ℤ)
    (h : ¬ low ≤ high) : calcLoop x opts low high cur = cur := by
  rw [calcLoop.eq_def, if_neg h]

lemma calcLoop_go (x : ℝ) (opts : LevelCalculationOptions) (low high cur mid : ℤ)
    (h : low ≤ high) (hm : (low + high) / 2 = mid)
    (hreq : (getRequiredXP (mid : ℝ) opts : ℝ) ≤ x) :
    calcLoop x opts low high cur = calcLoop x opts (mid + 1) high mid := by
  rw [calcLoop.eq_def, if_pos h]
  simp only [hm, if_pos hreq]

lemma calcLoop_skip (x : ℝ) (opts : LevelCalculationOptions) (low high cur mid : ℤ)
    (h : low ≤ high) (hm : (low + high) / 2 = mid)
    (hreq : ¬ (getRequiredXP (mid : ℝ) opts : ℝ) ≤ x) :
    calcLoop x opts low high cur = calcLoop x opts low (mid - 1) cur := by
  rw [calcLoop.eq_def, if_pos h]
  simp only [hm, if_neg hreq]

/-- Invariant-based correctness of the binary-search loop: provided the
required-XP curve is monotone on `[1, maxLevel]`, the loop returns a level
that every satisfied level is below, and that is itself satisfied unless it
is the initial `1`. -/
lemma calcLoop_invariant (opts : LevelCalculationOptions) (x : ℝ)
    (hmono : ∀ a b : ℤ, 1 ≤ a → a ≤ b → b ≤ opts.maxLevel →
      getRequiredXP (a : ℝ) opts ≤ getRequiredXP (b : ℝ) opts) :
    ∀ (n : ℕ) (low high cur : ℤ), (high + 1 - low).toNat ≤ n →
    1 ≤ low → low ≤ high + 1 → high ≤ opts.maxLevel →
    (∀ K : ℤ, 1 ≤ K → K ≤ opts.maxLevel →
      (getRequiredXP (K : ℝ) opts : ℝ) ≤ x → K ≤ high) →
    (∀ K : ℤ, 1 ≤ K → K < low →
      (getRequiredXP (K : ℝ) opts : ℝ) ≤ x → K ≤ cur) →
    (cur = 1 ∨ (1 ≤ cur ∧ cur ≤ opts.maxLevel ∧
      (getRequiredXP (cur : ℝ) opts : ℝ) ≤ x)) →
    1 ≤ calcLoop x opts low high cur ∧
    (calcLoop x opts low high cur ≤ opts.maxLevel ∨ calcLoop x opts low high cur = 1) ∧
    (∀ K : ℤ, 1 ≤ K → K ≤ opts.maxLevel →
      (getRequiredXP (K : ℝ) opts : ℝ) ≤ x → K ≤ calcLoop x opts low high cur) ∧
    ((getRequiredXP ((calcLoop x opts low high cur : ℤ) : ℝ) opts : ℝ) ≤ x ∨
      calcLoop x opts low high cur = 1) := by
  intro n
  induction n with
  | zero =>
    intro low high cur hn h1 h2 h3 hA hB hC
    have hlh : ¬ low ≤ high := by omega
    rw [calcLoop_exit x opts low high cur hlh]
    refine ⟨by rcases hC with h | h <;> omega, ?_, ?_, ?_⟩
    · rcases hC with h | h
      · exact Or.inr h
      · exact Or.inl h.2.1
    · intro K hK1 hKm hKx
      exact hB K hK1 (by have := hA K hK1 hKm hKx; omega) hKx
    · rcases hC with h | h
      · exact Or.inr h
      · exact Or.inl h.2.2
  | succ n ih =>
    intro low high cur hn h1 h2 h3 hA hB hC
    by_cases hlh : low ≤ high
    · have hmid : low ≤ (low + high) / 2 ∧ (low + high) / 2 ≤ high := by omega
      by_cases hreq : (getRequiredXP (((low + high) / 2 : ℤ) : ℝ) opts : ℝ) ≤ x
      · rw [calcLoop_go x opts low high cur ((low + high) / 2) hlh rfl hreq]
        apply ih
        · omega
        · omega
        · omega
        · exact h3
        · exact hA
        · intro K hK1 hKlt hKx
          omega
        · exact Or.inr ⟨by omega, by omega, hreq⟩
      · rw [calcLoop_skip x opts low high cur ((low + high) / 2) hlh rfl hreq]
        apply ih
        · omega
        · exact h1
        · omega
        · omega
        · intro K hK1 hKm hKx
          by_contra hcon
          have hK2 : (low + high) / 2 ≤ K := by omega
          have := hmono ((low + high) / 2) K (by omega) hK2 hKm
          exact hreq (le_trans (by exact_mod_cast this) hKx)
        · exact hB
        · exact hC
    · rw [calcLoop_exit x opts low high cur hlh]
      refine ⟨by rcases hC with h | h <;> omega, ?_, ?_, ?_⟩
      · rcases hC with h | h
        · exact Or.inr h
        · exact Or.inl h.2.1
      · intro K hK1 hKm hKx
        exact hB K hK1 (by have := hA K hK1 hKm hKx; omega) hKx
      · rcases hC with h | h
        · exact Or.inr h
        · exact Or.inl h.2.2

/-- Correctness of `calculateLevel` for non-negative XP under a monotone
curve: the result lies in `[1, maxLevel]`, dominates every level whose
requirement is met, and either its own requirement is met or it is the
floor value 1 and no level's requirement is met. -/
lemma calculateLevel_greatest (opts : LevelCalculationOptions) (x : ℝ)
    (hmax : 1 ≤ opts.maxLevel)
    (hmono : ∀ a b : ℤ, 1 ≤ a → a ≤ b → b ≤ opts.maxLevel →
      getRequiredXP (a : ℝ) opts ≤ getRequiredXP (b : ℝ) opts)
    (hx : 0 ≤ x) :
    1 ≤ calculateLevel x opts ∧ calculateLevel x opts ≤ opts.maxLevel ∧
    (∀ K : ℤ, 1 ≤ K → K ≤ opts.maxLevel →
      (getRequiredXP (K : ℝ) opts : ℝ) ≤ x → K ≤ calculateLevel x opts) ∧
    ((getRequiredXP ((calculateLevel x opts : ℤ) : ℝ) opts : ℝ) ≤ x ∨
      (calculateLevel x opts = 1 ∧ ∀ K : ℤ, 1 ≤ K → K ≤ opts.maxLevel →
        ¬ (getRequiredXP (K : ℝ) opts : ℝ) ≤ x)) := by
  have hcl : calculateLevel x opts = calcLoop x opts 1 opts.maxLevel 1 := by
    unfold calculateLevel
    rw [if_neg (not_lt.mpr hx)]
  have h := calcLoop_invariant opts x hmono opts.maxLevel.toNat 1 opts.maxLevel 1
    (by omega) (by omega) (by omega) (le_refl _)
    (fun K _ hKm _ => hKm) (fun K hK1 hKlt _ => by omega) (Or.inl rfl)
  rw [hcl]
  obtain ⟨hr1, hr2, hr3, hr4⟩ := h
  refine ⟨hr1, by omega, hr3, ?_⟩
  by_cases hp : (getRequiredXP ((calcLoop x opts 1 opts.maxLevel 1 : ℤ) : ℝ) opts : ℝ) ≤ x
  · exact Or.inl hp
  · have hone : calcLoop x opts 1 opts.maxLevel 1 = 1 := by
      rcases hr4 with h | h
      · exact absurd h hp
      · exact h
    refine Or.inr ⟨hone, fun K hK1 hKm hKx => ?_⟩
    have hKle := hr3 K hK1 hKm hKx
    have hKeq : K = calcLoop x opts 1 opts.maxLevel 1 := by omega
    rw [hKeq] at hKx
    exact hp hKx

/-- The fuelled loop agrees with the loop whenever the fuel exceeds the
size of the remaining search interval. -/
lemma calcLoopFuel_correct : ∀ (fuel : ℕ) (x : ℝ)
    (opts : LevelCalculationOptions) (low high cur : ℤ),
    (high + 1 - low).toNat < fuel →
    calcLoopFuel fuel x opts low high cur = some (calcLoop x opts low high cur) := by
  intro fuel
  induction fuel with
  | zero => intro x opts low high cur h; omega
  | succ f ih =>
    intro x opts low high cur h
    by_cases hlh : low ≤ high
    · by_cases hreq : (getRequiredXP (((low + high) / 2 : ℤ) : ℝ) opts : ℝ) ≤ x
      · rw [calcLoop_go x opts low high cur ((low + high) / 2) hlh rfl hreq]
        show (if low ≤ high then _ else _) = _
        rw [if_pos hlh]
        simp only [if_pos hreq]
        exact ih x opts ((low + high) / 2 + 1) high ((low + high) / 2) (by omega)
      · rw [calcLoop_skip x opts low high cur ((low + high) / 2) hlh rfl hreq]
        show (if low ≤ high then _ else _) = _
        rw [if_pos hlh]
        simp only [if_neg hreq]
        exact ih x opts low ((low + high) / 2 - 1) cur (by omega)
    · rw [calcLoop_exit x opts low high cur hlh]
      show (if low ≤ high then _ else _) = _
      rw [if_neg hlh]

/-! ## Concrete values of the default configuration -/

lemma DEFAULT_OPTIONS_baseXP : DEFAULT_OPTIONS.baseXP = 100 := rfl

lemma DEFAULT_OPTIONS_exponent : DEFAULT_OPTIONS.exponent = 1.5 := rfl

lemma DEFAULT_OPTIONS_maxLevel : DEFAULT_OPTIONS.maxLevel = 100 := rfl

/-- In-range values of the default curve. -/
lemma req_default_eval {level : ℝ} (h1 : (1 : ℝ) ≤ level) (h2 : level ≤ 100) :
    getRequiredXP level DEFAULT_OPTIONS = ⌊(100 : ℝ) * level ^ (1.5 : ℝ)⌋ := by
  rw [getRequiredXP_of_le_max DEFAULT_OPTIONS (not_lt.mpr h1)
      (by rw [DEFAULT_OPTIONS_maxLevel]; push_cast; exact not_lt.mpr h2),
    DEFAULT_OPTIONS_baseXP, DEFAULT_OPTIONS_exponent]

lemma req_default_one : getRequiredXP 1 DEFAULT_OPTIONS = 100 := by
  rw [req_default_eval le_rfl (by norm_num), Real.one_rpow]
  norm_num

lemma req_default_ten : getRequiredXP 10 DEFAULT_OPTIONS = 3162 := by
  rw [req_default_eval (by norm_num) (by norm_num)]
  set t : ℝ := (10 : ℝ) ^ (1.5 : ℝ) with ht
  have ht0 : (0 : ℝ) ≤ t := Real.rpow_nonneg (by norm_num) _
  have ht2 : t ^ (2 : ℕ) = 1000 := by
    rw [ht, ← Real.rpow_natCast ((10 : ℝ) ^ (1.5 : ℝ)) 2,
      ← Real.rpow_mul (by norm_num : (0 : ℝ) ≤ 10)]
    rw [show (1.5 : ℝ) * ((2 : ℕ) : ℝ) = ((3 : ℕ) : ℝ) by push_cast; norm_num,
      Real.rpow_natCast]
    norm_num
  rw [Int.floor_eq_iff]
  constructor
  · push_cast
    nlinarith [ht2, ht0]
  · push_cast
    nlinarith [ht2, ht0]

lemma req_default_two_ge : (200 : ℤ) ≤ getRequiredXP 2 DEFAULT_OPTIONS := by
  rw [req_default_eval (by norm_num) (by norm_num)]
  apply Int.le_floor.mpr
  have h : (2 : ℝ) ^ (1 : ℝ) ≤ (2 : ℝ) ^ (1.5 : ℝ) :=
    Real.rpow_le_rpow_of_exponent_le (by norm_num) (by norm_num)
  rw [Real.rpow_one] at h
  push_cast
  nlinarith [h]

lemma req_default_hundred : getRequiredXP 100 DEFAULT_OPTIONS = 100000 := by
  rw [req_default_eval (by norm_num) (by norm_num)]
  set t : ℝ := (100 : ℝ) ^ (1.5 : ℝ) with ht
  have ht0 : (0 : ℝ) ≤ t := Real.rpow_nonneg (by norm_num) _
  have ht2 : t ^ (2 : ℕ) = 1000000 := by
    rw [ht, ← Real.rpow_natCast ((100 : ℝ) ^ (1.5 : ℝ)) 2,
      ← Real.rpow_mul (by norm_num : (0 : ℝ) ≤ 100)]
    rw [show (1.5 : ℝ) * ((2 : ℕ) : ℝ) = ((3 : ℕ) : ℝ) by push_cast; norm_num,
      Real.rpow_natCast]
    norm_num
  have ht1000 : t = 1000 := by nlinarith [ht2, ht0]
  rw [ht1000, show (100 : ℝ) * 1000 = ((100000 : ℤ) : ℝ) by norm_num, Int.floor_intCast]

/-- The default curve is monotone on integer levels. -/
lemma default_monoZ : ∀ a b : ℤ, 1 ≤ a → a ≤ b → b ≤ DEFAULT_OPTIONS.maxLevel →
    getRequiredXP (a : ℝ) DEFAULT_OPTIONS ≤ getRequiredXP (b : ℝ) DEFAULT_OPTIONS :=
  getRequiredXP_monoZ DEFAULT_OPTIONS
    (by rw [DEFAULT_OPTIONS_baseXP]; norm_num)
    (by rw [DEFAULT_OPTIONS_exponent]; norm_num)

/-- 100 XP is exactly the level-1 requirement and below the level-2 one. -/
lemma calcLevel_default_100 : calculateLevel 100 DEFAULT_OPTIONS = 1 := by
  obtain ⟨h1, h2, h3, h4⟩ := calculateLevel_greatest DEFAULT_OPTIONS 100
    (by rw [DEFAULT_OPTIONS_maxLevel]; norm_num) default_monoZ (by norm_num)
  rw [DEFAULT_OPTIONS_maxLevel] at h2
  by_contra hne
  have hL2 : 2 ≤ calculateLevel 100 DEFAULT_OPTIONS := by omega
  rcases h4 with h | h
  · have hm := default_monoZ 2 (calculateLevel 100 DEFAULT_OPTIONS) (by norm_num) hL2
      (by rw [DEFAULT_OPTIONS_maxLevel]; omega)
    rw [show ((2 : ℤ) : ℝ) = (2 : ℝ) by norm_num] at hm
    have := req_default_two_ge
    have hcast : ((getRequiredXP ((calculateLevel 100 DEFAULT_OPTIONS : ℤ) : ℝ)
        DEFAULT_OPTIONS : ℤ) : ℝ) ≥ 200 := by
      have : (200 : ℤ) ≤ getRequiredXP ((calculateLevel 100 DEFAULT_OPTIONS : ℤ) : ℝ)
          DEFAULT_OPTIONS := le_trans req_default_two_ge hm
      exact_mod_cast this
    linarith [h, hcast]
  · exact hne h.1

/-- 100000 XP is exactly the level-100 requirement, so the level is the cap. -/
lemma calcLevel_default_100000 : calculateLevel 100000 DEFAULT_OPTIONS = 100 := by
  obtain ⟨h1, h2, h3, h4⟩ := calculateLevel_greatest DEFAULT_OPTIONS 100000
    (by rw [DEFAULT_OPTIONS_maxLevel]; norm_num) default_monoZ (by norm_num)
  rw [DEFAULT_OPTIONS_maxLevel] at h2
  have h100 : (100 : ℤ) ≤ calculateLevel 100000 DEFAULT_OPTIONS := by
    apply h3 100 (by norm_num) (by rw [DEFAULT_OPTIONS_maxLevel])
    rw [show ((100 : ℤ) : ℝ) = (100 : ℝ) by norm_num, req_default_hundred]
    norm_num
  omega

/-! ## Concrete evaluations for specific configurations -/

lemma reqA_one : getRequiredXP ((1 : ℤ) : ℝ) ⟨100, -1, 3⟩ = 100 := by
  unfold getRequiredXP
  norm_num [Real.one_rpow]

lemma reqA_two : getRequiredXP ((2 : ℤ) : ℝ) ⟨100, -1, 3⟩ = 50 := by
  unfold getRequiredXP
  norm_num

lemma reqA_three_le : (getRequiredXP ((3 : ℤ) : ℝ) ⟨100, -1, 3⟩ : ℝ) ≤ 40 := by
  unfold getRequiredXP
  norm_num

/-- With the decreasing curve `100 · level⁻¹` capped at level 3, the binary
search at 40 XP stops at level 1 although level 3 is satisfied. -/
lemma calcLevel_A_40 : calculateLevel 40 ⟨100, -1, 3⟩ = 1 := by
  unfold calculateLevel
  rw [if_neg (by norm_num),
    calcLoop_skip _ _ _ _ _ 2 (by decide) (by decide)
      (by rw [reqA_two]; norm_num),
    calcLoop_skip _ _ _ _ _ 1 (by decide) (by decide)
      (by rw [reqA_one]; norm_num),
    calcLoop_exit _ _ _ _ _ (by decide)]

lemma reqB_two : getRequiredXP ((2 : ℤ) : ℝ) ⟨1/2, 1, 3⟩ = 1 := by
  unfold getRequiredXP
  norm_num

lemma reqB_three : getRequiredXP ((3 : ℤ) : ℝ) ⟨1/2, 1, 3⟩ = 1 := by
  unfold getRequiredXP
  norm_num

/-- With `baseXP = 1/2` (linear curve), levels 2 and 3 have the same
required XP 1, and the search at 1 XP lands on 3. -/
lemma calcLevel_B_1 : calculateLevel 1 ⟨1/2, 1, 3⟩ = 3 := by
  unfold calculateLevel
  rw [if_neg (by norm_num),
    calcLoop_go _ _ _ _ _ 2 (by decide) (by decide)
      (by rw [reqB_two]; norm_num),
    calcLoop_go _ _ _ _ _ 3 (by decide) (by decide)
      (by rw [reqB_three]; norm_num),
    calcLoop_exit _ _ _ _ _ (by decide)]

lemma reqC_one : getRequiredXP ((1 : ℤ) : ℝ) ⟨100, -1, 2⟩ = 100 := by
  unfold getRequiredXP
  norm_num [Real.one_rpow]

lemma reqC_two : getRequiredXP (((1 : ℤ) : ℝ) + 1) ⟨100, -1, 2⟩ = 50 := by
  unfold getRequiredXP
  norm_num

lemma calcLevel_C_60 : calculateLevel 60 ⟨100, -1, 2⟩ = 1 := by
  unfold calculateLevel
  rw [if_neg (by norm_num),
    calcLoop_skip _ _ _ _ _ 1 (by decide) (by decide)
      (by rw [reqC_one]; norm_num),
    calcLoop_exit _ _ _ _ _ (by decide)]

lemma reqD_one : getRequiredXP ((1 : ℤ) : ℝ) ⟨100, 1.5, 1⟩ = 100 := by
  unfold getRequiredXP
  norm_num [Real.one_rpow]

lemma reqD_two : getRequiredXP (((1 : ℤ) : ℝ) + 1) ⟨100, 1.5, 1⟩ = 100 := by
  unfold getRequiredXP
  norm_num [Real.one_rpow]

/-- At the cap 1 with 0.5 XP (below the level-1 requirement), the level is 1. -/
lemma calcLevel_D_half : calculateLevel 0.5 ⟨100, 1.5, 1⟩ = 1 := by
  unfold calculateLevel
  rw [if_neg (by norm_num),
    calcLoop_skip _ _ _ _ _ 1 (by decide) (by decide)
      (by rw [reqD_one]; norm_num),
    calcLoop_exit _ _ _ _ _ (by decide)]

lemma calcLevel_D_zero : calculateLevel 0 ⟨100, 1.5, 1⟩ = 1 := by
  unfold calculateLevel
  rw [if_neg (by norm_num),
    calcLoop_skip _ _ _ _ _ 1 (by decide) (by decide)
      (by rw [reqD_one]; norm_num),
    calcLoop_exit _ _ _ _ _ (by decide)]

lemma reqE_one : getRequiredXP ((1 : ℤ) : ℝ) ⟨100, 1, 1⟩ = 100 := by
  unfold getRequiredXP
  norm_num

lemma calcLevel_E_100 : calculateLevel 100 ⟨100, 1, 1⟩ = 1 := by
  unfold calculateLevel
  rw [if_neg (by norm_num),
    calcLoop_go _ _ _ _ _ 1 (by decide) (by decide)
      (by rw [reqE_one]; norm_num),
    calcLoop_exit _ _ _ _ _ (by decide)]

/-- The linear config `baseXP = 100, exponent = 1, maxLevel = 5`:
`getRequiredXP` is exactly `100 · level` on integer levels in range. -/
lemma reqF_linear (a : ℤ) (h1 : 1 ≤ a) (h5 : a ≤ 5) :
    getRequiredXP ((a : ℤ) : ℝ) ⟨100, 1, 5⟩ = 100 * a := by
  rw [getRequiredXP_of_le_max _ (not_lt.mpr (by exact_mod_cast h1))
      (not_lt.mpr (by exact_mod_cast h5))]
  rw [show ((⟨100, 1, 5⟩ : LevelCalculationOptions).exponent) = (1 : ℝ) from rfl,
    show ((⟨100, 1, 5⟩ : LevelCalculationOptions).baseXP) = (100 : ℝ) from rfl,
    Real.rpow_one]
  rw [show (100 : ℝ) * (a : ℝ) = (((100 * a : ℤ)) : ℝ) by push_cast; ring,
    Int.floor_intCast]

/-! ## The claims -/

/-- C1 (amended): for every configuration with `maxLevel ≥ 1` whose required-XP
values are monotone non-decreasing on integer levels of `[1, maxLevel]` (as
holds whenever `baseXP > 0` and `exponent ≥ 0`), `calculateLevel(totalXP)`
returns 1 for `totalXP < 0`, and for `totalXP ≥ 0` returns the highest level
`L` in `[1, maxLevel]` with `getRequiredXP(L) ≤ totalXP`, or 1 when no level's
requirement is `≤ totalXP`. -/
theorem claim_C1 (opts : LevelCalculationOptions) (x : ℝ)
    (hmax : 1 ≤ opts.maxLevel)
    (hmono : ∀ a b : ℤ, 1 ≤ a → a ≤ b → b ≤ opts.maxLevel →
      getRequiredXP (a : ℝ) opts ≤ getRequiredXP (b : ℝ) opts) :
    (x < 0 → calculateLevel x opts = 1) ∧
    (0 ≤ x →
      1 ≤ calculateLevel x opts ∧ calculateLevel x opts ≤ opts.maxLevel ∧
      (∀ K : ℤ, 1 ≤ K → K ≤ opts.maxLevel →
        (getRequiredXP (K : ℝ) opts : ℝ) ≤ x → K ≤ calculateLevel x opts) ∧
      ((getRequiredXP ((calculateLevel x opts : ℤ) : ℝ) opts : ℝ) ≤ x ∨
        (calculateLevel x opts = 1 ∧ ∀ K : ℤ, 1 ≤ K → K ≤ opts.maxLevel →
          ¬ (getRequiredXP (K : ℝ) opts : ℝ) ≤ x))) := by
  constructor
  · intro hx
    unfold calculateLevel
    rw [if_pos hx]
  · intro hx
    exact calculateLevel_greatest opts x hmax hmono hx

/-- C1 counterexample: with the (type-correct, non-monotone) configuration
`baseXP = 100, exponent = -1, maxLevel = 3` and `totalXP = 40`, level 3 lies
in `[1, maxLevel]` and its requirement (33) is `≤ 40`, yet `calculateLevel`
returns 1 — not the highest satisfying level the claim promises for every
configuration. -/
theorem claim_C1_cex :
    calculateLevel 40 ⟨100, -1, 3⟩ = 1 ∧
    (1 : ℤ) < 3 ∧ (3 : ℤ) ≤ (⟨100, -1, 3⟩ : LevelCalculationOptions).maxLevel ∧
    (getRequiredXP ((3 : ℤ) : ℝ) ⟨100, -1, 3⟩ : ℝ) ≤ 40 :=
  ⟨calcLevel_A_40, by norm_num, by norm_num, reqA_three_le⟩

theorem claim_C1_witness :
    1 ≤ calculateLevel 150 DEFAULT_OPTIONS ∧
    calculateLevel 150 DEFAULT_OPTIONS ≤ DEFAULT_OPTIONS.maxLevel := by
  have h := (claim_C1 DEFAULT_OPTIONS 150
    (by rw [DEFAULT_OPTIONS_maxLevel]; norm_num) default_monoZ).2 (by norm_num)
  exact ⟨h.1, h.2.1⟩

/-- C2 (amended): the round trip `calculateLevel (getRequiredXP L) = L` holds
for every level `L` in `[1, maxLevel]` of every configuration with
`maxLevel ≥ 1` whose required-XP values are strictly increasing on integer
levels of `[1, maxLevel]` and non-negative at `L` (as holds for the default
configuration); it fails for configurations whose curve has plateaus. -/
theorem claim_C2 (opts : LevelCalculationOptions) (L : ℤ)
    (hmax : 1 ≤ opts.maxLevel)
    (hstrict : ∀ a b : ℤ, 1 ≤ a → a < b → b ≤ opts.maxLevel →
      getRequiredXP (a : ℝ) opts < getRequiredXP (b : ℝ) opts)
    (hnn : 0 ≤ getRequiredXP (L : ℝ) opts)
    (h1 : 1 ≤ L) (hLm : L ≤ opts.maxLevel) :
    calculateLevel ((getRequiredXP (L : ℝ) opts : ℤ) : ℝ) opts = L := by
  have hmono : ∀ a b : ℤ, 1 ≤ a → a ≤ b → b ≤ opts.maxLevel →
      getRequiredXP (a : ℝ) opts ≤ getRequiredXP (b : ℝ) opts := by
    intro a b ha hab hbm
    rcases eq_or_lt_of_le hab with h | h
    · rw [h]
    · exact (hstrict a b ha h hbm).le
  have hx : (0 : ℝ) ≤ ((getRequiredXP (L : ℝ) opts : ℤ) : ℝ) := by exact_mod_cast hnn
  obtain ⟨g1, g2, g3, g4⟩ := calculateLevel_greatest opts _ hmax hmono hx
  have hLr : L ≤ calculateLevel ((getRequiredXP (L : ℝ) opts : ℤ) : ℝ) opts :=
    g3 L h1 hLm (le_refl _)
  rcases g4 with hg | hg
  · by_contra hne
    have hlt : L < calculateLevel ((getRequiredXP (L : ℝ) opts : ℤ) : ℝ) opts := by omega
    have hs := hstrict L _ h1 hlt g2
    have hle : getRequiredXP ((calculateLevel ((getRequiredXP (L : ℝ) opts : ℤ) : ℝ) opts : ℤ) : ℝ) opts ≤
        getRequiredXP (L : ℝ) opts := by exact_mod_cast hg
    linarith [hs, hle]
  · exact absurd (le_refl _) (hg.2 L h1 hLm)

/-- C2 counterexample: with the (type-correct) configuration
`baseXP = 1/2, exponent = 1, maxLevel = 3`, levels 2 and 3 share the
requirement 1, and the round trip at `L = 2` returns 3 instead of 2. -/
theorem claim_C2_cex :
    getRequiredXP ((2 : ℤ) : ℝ) ⟨1/2, 1, 3⟩ = 1 ∧
    calculateLevel ((getRequiredXP ((2 : ℤ) : ℝ) ⟨1/2, 1, 3⟩ : ℤ) : ℝ) ⟨1/2, 1, 3⟩ = 3 ∧
    (3 : ℤ) ≠ 2 := by
  refine ⟨reqB_two, ?_, by norm_num⟩
  rw [reqB_two]
  exact_mod_cast calcLevel_B_1

theorem claim_C2_witness :
    calculateLevel ((getRequiredXP ((3 : ℤ) : ℝ) ⟨100, 1, 5⟩ : ℤ) : ℝ) ⟨100, 1, 5⟩ = 3 := by
  apply claim_C2 _ 3 (by norm_num)
  · intro a b ha hab hb
    have hb5 : b ≤ 5 := hb
    rw [reqF_linear a ha (by omega), reqF_linear b (by omega) hb5]
    omega
  · rw [reqF_linear 3 (by norm_num) (by norm_num)]
    norm_num
  · norm_num
  · norm_num

/-- C3: `getRequiredXP` returns 0 for levels below 1, computes the floor
formula on the clamped level above the cap, computes
`⌊baseXP · level ^ exponent⌋` in range, and on the default configuration
takes the values 100 at level 1 and 3162 at level 10. -/
theorem claim_C3 (opts : LevelCalculationOptions) (level : ℝ) :
    (level < 1 → getRequiredXP level opts = 0) ∧
    (1 ≤ level → (opts.maxLevel : ℝ) < level →
      getRequiredXP level opts = ⌊opts.baseXP * (opts.maxLevel : ℝ) ^ opts.exponent⌋) ∧
    (1 ≤ level → level ≤ (opts.maxLevel : ℝ) →
      getRequiredXP level opts = ⌊opts.baseXP * level ^ opts.exponent⌋) ∧
    getRequiredXP 1 DEFAULT_OPTIONS = 100 ∧
    getRequiredXP 10 DEFAULT_OPTIONS = 3162 :=
  ⟨fun h => getRequiredXP_of_lt_one opts h,
    fun h1 h2 => getRequiredXP_of_gt_max opts (not_lt.mpr h1) h2,
    fun h1 h2 => getRequiredXP_of_le_max opts (not_lt.mpr h1) (not_lt.mpr h2),
    req_default_one, req_default_ten⟩

theorem claim_C3_witness :
    getRequiredXP 0.5 DEFAULT_OPTIONS = 0 ∧ getRequiredXP 10 DEFAULT_OPTIONS = 3162 :=
  ⟨(claim_C3 DEFAULT_OPTIONS 0.5).1 (by norm_num),
    (claim_C3 DEFAULT_OPTIONS 0.5).2.2.2.2⟩

/-- C4: on every configuration with `baseXP > 0` and `exponent ≥ 0`, the
required-XP curve is monotone: `a < b ≤ maxLevel` implies
`getRequiredXP a ≤ getRequiredXP b`. -/
theorem claim_C4 (opts : LevelCalculationOptions) (a b : ℝ)
    (hb : 0 < opts.baseXP) (he : 0 ≤ opts.exponent)
    (hab : a < b) (hbm : b ≤ (opts.maxLevel : ℝ)) :
    getRequiredXP a opts ≤ getRequiredXP b opts :=
  getRequiredXP_mono opts hb he hab.le hbm

theorem claim_C4_witness :
    getRequiredXP 2 DEFAULT_OPTIONS ≤ getRequiredXP 3 DEFAULT_OPTIONS :=
  claim_C4 DEFAULT_OPTIONS 2 3 (by rw [DEFAULT_OPTIONS_baseXP]; norm_num)
    (by rw [DEFAULT_OPTIONS_exponent]; norm_num) (by norm_num)
    (by rw [DEFAULT_OPTIONS_maxLevel]; norm_num)

/-- Definitional unfolding of `getXPProgress`. -/
lemma getXPProgress_eq (x : ℝ) (opts : LevelCalculationOptions) :
    getXPProgress x opts =
      if calculateLevel x opts ≥ opts.maxLevel then (100 : ℝ)
      else min 100 (max 0
        ((x - (getRequiredXP ((calculateLevel x opts : ℤ) : ℝ) opts : ℝ)) /
          ((getRequiredXP (((calculateLevel x opts : ℤ) : ℝ) + 1) opts : ℝ) -
            (getRequiredXP ((calculateLevel x opts : ℤ) : ℝ) opts : ℝ)) * 100)) := rfl

/-- Definitional unfolding of `getXPToNextLevel`. -/
lemma getXPToNextLevel_eq (x : ℝ) (opts : LevelCalculationOptions) :
    getXPToNextLevel x opts =
      max 0 ((getRequiredXP (((calculateLevel x opts : ℤ) : ℝ) + 1) opts : ℝ) - x) := rfl

/-- C5 (amended): for every real `x` and every configuration,
`getXPProgress x` lies in `[0, 100]`; it equals 0 whenever `x` equals the
requirement of `calculateLevel x` and that level is below the cap; and it
equals 100 whenever `calculateLevel x` is the cap (at `x = getRequiredXP
maxLevel` the max-level branch wins, so the zero clause needs the
below-the-cap proviso). -/
theorem claim_C5 (x : ℝ) (opts : LevelCalculationOptions) :
    (0 ≤ getXPProgress x opts ∧ getXPProgress x opts ≤ 100) ∧
    (x = (getRequiredXP ((calculateLevel x opts : ℤ) : ℝ) opts : ℝ) →
      calculateLevel x opts < opts.maxLevel → getXPProgress x opts = 0) ∧
    (calculateLevel x opts = opts.maxLevel → getXPProgress x opts = 100) := by
  refine ⟨?_, ?_, ?_⟩
  · rw [getXPProgress_eq]
    by_cases h : calculateLevel x opts ≥ opts.maxLevel
    · rw [if_pos h]
      norm_num
    · rw [if_neg h]
      exact ⟨le_min (by norm_num) (le_max_left _ _), min_le_left _ _⟩
  · intro hx hlt
    rw [getXPProgress_eq, if_neg (by omega : ¬ calculateLevel x opts ≥ opts.maxLevel)]
    rw [sub_eq_zero_of_eq hx, zero_div, zero_mul]
    norm_num
  · intro h
    rw [getXPProgress_eq, if_pos (ge_of_eq h)]

/-- C5 counterexample: under the default configuration, `x = 100000` equals
the requirement of its own level (`calculateLevel 100000 = 100`, and
`getRequiredXP 100 = 100000`), yet `getXPProgress` returns 100, not the 0
demanded by the claim's unconditional zero clause. -/
theorem claim_C5_cex :
    (100000 : ℝ) =
      (getRequiredXP ((calculateLevel 100000 DEFAULT_OPTIONS : ℤ) : ℝ) DEFAULT_OPTIONS : ℝ) ∧
    getXPProgress 100000 DEFAULT_OPTIONS = 100 ∧ (100 : ℝ) ≠ 0 := by
  refine ⟨?_, ?_, by norm_num⟩
  · rw [calcLevel_default_100000, show ((100 : ℤ) : ℝ) = (100 : ℝ) by norm_num,
      req_default_hundred]
    norm_num
  · rw [getXPProgress_eq, if_pos (show calculateLevel 100000 DEFAULT_OPTIONS ≥
      DEFAULT_OPTIONS.maxLevel by rw [calcLevel_default_100000, DEFAULT_OPTIONS_maxLevel])]

theorem claim_C5_witness :
    getXPProgress 100 DEFAULT_OPTIONS = 0 ∧ getXPProgress 0 ⟨100, 1.5, 1⟩ = 100 := by
  constructor
  · apply (claim_C5 100 DEFAULT_OPTIONS).2.1
    · rw [calcLevel_default_100, show ((1 : ℤ) : ℝ) = (1 : ℝ) by norm_num, req_default_one]
      norm_num
    · rw [calcLevel_default_100, DEFAULT_OPTIONS_maxLevel]
      norm_num
  · apply (claim_C5 0 ⟨100, 1.5, 1⟩).2.2
    rw [calcLevel_D_zero]

/-- C6 (amended): when the max-level branch is not taken and the denominator
`getRequiredXP (L+1) - getRequiredXP L` is zero or negative, the result is
the general clamp of the ratio into `[0, 100]` — it lies in `[0, 100]` but
is not necessarily 100. -/
theorem claim_C6 (x : ℝ) (opts : LevelCalculationOptions)
    (hlt : calculateLevel x opts < opts.maxLevel)
    (_hden : getRequiredXP (((calculateLevel x opts : ℤ) : ℝ) + 1) opts ≤
      getRequiredXP ((calculateLevel x opts : ℤ) : ℝ) opts) :
    getXPProgress x opts = min 100 (max 0
      ((x - (getRequiredXP ((calculateLevel x opts : ℤ) : ℝ) opts : ℝ)) /
        ((getRequiredXP (((calculateLevel x opts : ℤ) : ℝ) + 1) opts : ℝ) -
          (getRequiredXP ((calculateLevel x opts : ℤ) : ℝ) opts : ℝ)) * 100)) ∧
    0 ≤ getXPProgress x opts ∧ getXPProgress x opts ≤ 100 := by
  refine ⟨?_, ?_, ?_⟩
  · rw [getXPProgress_eq, if_neg (by omega : ¬ calculateLevel x opts ≥ opts.maxLevel)]
  · rw [getXPProgress_eq, if_neg (by omega : ¬ calculateLevel x opts ≥ opts.maxLevel)]
    exact le_min (by norm_num) (le_max_left _ _)
  · rw [getXPProgress_eq, if_neg (by omega : ¬ calculateLevel x opts ≥ opts.maxLevel)]
    exact min_le_left _ _

/-- C6 counterexample: with `baseXP = 100, exponent = -1, maxLevel = 2` and
`x = 60`, the max-level branch is not taken, the denominator is `50 - 100 < 0`,
and the result is 80 — not the 100 the claim demands. -/
theorem claim_C6_cex :
    calculateLevel 60 ⟨100, -1, 2⟩ < (⟨100, -1, 2⟩ : LevelCalculationOptions).maxLevel ∧
    (getRequiredXP (((calculateLevel 60 ⟨100, -1, 2⟩ : ℤ) : ℝ) + 1) ⟨100, -1, 2⟩ : ℝ) -
      (getRequiredXP ((calculateLevel 60 ⟨100, -1, 2⟩ : ℤ) : ℝ) ⟨100, -1, 2⟩ : ℝ) < 0 ∧
    getXPProgress 60 ⟨100, -1, 2⟩ = 80 ∧ (80 : ℝ) ≠ 100 := by
  refine ⟨?_, ?_, ?_, by norm_num⟩
  · rw [calcLevel_C_60]
    norm_num
  · rw [calcLevel_C_60, reqC_two, reqC_one]
    norm_num
  · rw [getXPProgress_eq, if_neg (by rw [calcLevel_C_60]; norm_num),
      calcLevel_C_60, reqC_two, reqC_one]
    push_cast
    rw [show ((60 : ℝ) - 100) / (50 - 100) * 100 = 80 by norm_num,
      max_eq_right (by norm_num : (0 : ℝ) ≤ 80),
      min_eq_right (by norm_num : (80 : ℝ) ≤ 100)]

theorem claim_C6_witness :
    0 ≤ getXPProgress 60 ⟨100, -1, 2⟩ ∧ getXPProgress 60 ⟨100, -1, 2⟩ ≤ 100 := by
  have h := claim_C6 60 ⟨100, -1, 2⟩ (by rw [calcLevel_C_60]; norm_num)
    (by rw [calcLevel_C_60, reqC_two, reqC_one]; norm_num)
  exact ⟨h.2.1, h.2.2⟩

/-- C7 (amended): `getXPToNextLevel` equals
`max(0, getRequiredXP (calculateLevel x + 1) - x)`, is non-negative, is an
integer whenever `x` is an integer, and equals 0 whenever `calculateLevel x`
is the cap AND `x` has reached the cap's requirement (an unearned cap — e.g.
`maxLevel = 1` with `x` below the level-1 requirement — yields a positive,
possibly fractional value). -/
theorem claim_C7 (x : ℝ) (opts : LevelCalculationOptions) :
    getXPToNextLevel x opts =
      max 0 ((getRequiredXP (((calculateLevel x opts : ℤ) : ℝ) + 1) opts : ℝ) - x) ∧
    0 ≤ getXPToNextLevel x opts ∧
    (∀ m : ℤ, x = (m : ℝ) → ∃ k : ℤ, getXPToNextLevel x opts = (k : ℝ)) ∧
    (1 ≤ opts.maxLevel → calculateLevel x opts = opts.maxLevel →
      (getRequiredXP ((opts.maxLevel : ℤ) : ℝ) opts : ℝ) ≤ x →
      getXPToNextLevel x opts = 0) := by
  refine ⟨getXPToNextLevel_eq x opts, ?_, ?_, ?_⟩
  · rw [getXPToNextLevel_eq]
    exact le_max_left _ _
  · intro m hm
    refine ⟨max 0 (getRequiredXP (((calculateLevel x opts : ℤ) : ℝ) + 1) opts - m), ?_⟩
    rw [getXPToNextLevel_eq, hm]
    push_cast
    rfl
  · intro hmax1 hL hreq
    rw [getXPToNextLevel_eq, hL]
    have hm1 : (1 : ℝ) ≤ ((opts.maxLevel : ℤ) : ℝ) := by exact_mod_cast hmax1
    have hcl : getRequiredXP (((opts.maxLevel : ℤ) : ℝ) + 1) opts =
        getRequiredXP ((opts.maxLevel : ℤ) : ℝ) opts := by
      rw [getRequiredXP_of_gt_max opts (by linarith) (by linarith),
        getRequiredXP_of_le_max opts (not_lt.mpr hm1) (lt_irrefl _)]
    rw [hcl]
    exact max_eq_left (by linarith)

/-- C7 counterexample: with `baseXP = 100, exponent = 1.5, maxLevel = 1` and
`currentXP = 0.5`, the level is the cap (1), yet `getXPToNextLevel` returns
99.5 — neither 0 (contradicting the zero-at-max-level clause) nor an
integer. -/
theorem claim_C7_cex :
    calculateLevel 0.5 ⟨100, 1.5, 1⟩ = (⟨100, 1.5, 1⟩ : LevelCalculationOptions).maxLevel ∧
    getXPToNextLevel 0.5 ⟨100, 1.5, 1⟩ = 99.5 ∧ (99.5 : ℝ) ≠ 0 := by
  refine ⟨by rw [calcLevel_D_half], ?_, by norm_num⟩
  rw [getXPToNextLevel_eq, calcLevel_D_half, reqD_two]
  rw [show (((100 : ℤ) : ℝ)) - 0.5 = 99.5 by norm_num]
  exact max_eq_right (by norm_num)

theorem claim_C7_witness :
    (∃ k : ℤ, getXPToNextLevel 150 DEFAULT_OPTIONS = (k : ℝ)) ∧
    getXPToNextLevel 100 ⟨100, 1, 1⟩ = 0 := by
  constructor
  · exact (claim_C7 150 DEFAULT_OPTIONS).2.2.1 150 (by norm_num)
  · apply (claim_C7 100 ⟨100, 1, 1⟩).2.2.2
    · norm_num
    · rw [calcLevel_E_100]
    · show (getRequiredXP (((1 : ℤ)) : ℝ) ⟨100, 1, 1⟩ : ℝ) ≤ 100
      rw [reqE_one]
      norm_num

lemma findRank_eq_none_iff (level : ℝ) :
    ∀ l : List RankDefinition, findRank level l = none ↔
      ∀ r ∈ l, ¬ (r.minLevel ≤ level ∧ level ≤ r.maxLevel) := by
  intro l
  induction l with
  | nil => simp [findRank]
  | cons a rest ih =>
    rw [findRank]
    by_cases h : a.minLevel ≤ level ∧ level ≤ a.maxLevel
    · rw [if_pos h]
      simp only [List.mem_cons]
      constructor
      · intro hc
        exact absurd hc (by simp)
      · intro hall
        exact absurd h (hall a (Or.inl rfl))
    · rw [if_neg h, ih]
      constructor
      · intro hall r hr
        rcases List.mem_cons.mp hr with hra | hr2
        · rw [hra]; exact h
        · exact hall r hr2
      · intro hall r hr
        exact hall r (List.mem_cons_of_mem _ hr)

lemma findRank_first (level : ℝ) :
    ∀ (l : List RankDefinition) (r : RankDefinition), findRank level l = some r →
      ∃ i : ℕ, ∃ hi : i < l.length,
        l.get ⟨i, hi⟩ = r ∧ (r.minLevel ≤ level ∧ level ≤ r.maxLevel) ∧
        ∀ j : ℕ, ∀ hj : j < l.length, j < i →
          ¬ ((l.get ⟨j, hj⟩).minLevel ≤ level ∧ level ≤ (l.get ⟨j, hj⟩).maxLevel) := by
  intro l
  induction l with
  | nil =>
    intro r hr
    simp [findRank] at hr
  | cons a rest ih =>
    intro r hr
    rw [findRank] at hr
    by_cases h : a.minLevel ≤ level ∧ level ≤ a.maxLevel
    · rw [if_pos h] at hr
      have har : a = r := by injection hr
      refine ⟨0, by simp, har, har ▸ h, fun j hj hj0 => absurd hj0 (Nat.not_lt_zero j)⟩
    · rw [if_neg h] at hr
      obtain ⟨i, hi, hget, hcont, hprev⟩ := ih r hr
      refine ⟨i + 1, by simpa using Nat.succ_lt_succ hi, by simpa using hget, hcont, ?_⟩
      intro j hj hji
      cases j with
      | zero => simpa using h
      | succ j2 =>
        have hj2 : j2 < rest.length := by simpa using hj
        have := hprev j2 hj2 (by omega)
        simpa using this

lemma getRank_default_cov (L : ℤ) (h1 : 1 ≤ L) (h2 : L ≤ 100) :
    (getRank (L : ℝ) none).isSome = true := by
  show (findRank (L : ℝ) DEFAULT_RANKS).isSome = true
  rw [DEFAULT_RANKS]
  rcases le_or_lt L 10 with hc10 | hc10
  · rw [findRank, if_pos ⟨show (1 : ℝ) ≤ (L : ℝ) by exact_mod_cast (show (1 : ℤ) ≤ L by omega), show (L : ℝ) ≤ (10 : ℝ) by exact_mod_cast (show (L : ℤ) ≤ 10 by omega)⟩]
    rfl
  rcases le_or_lt L 25 with hc25 | hc25
  · rw [findRank,
      if_neg (fun hc => by
        have hx : (L : ℝ) ≤ 10 := hc.2
        have hL : L ≤ 10 := by exact_mod_cast hx
        omega),
      findRank,
      if_pos ⟨show (11 : ℝ) ≤ (L : ℝ) by exact_mod_cast (show (11 : ℤ) ≤ L by omega),
        show (L : ℝ) ≤ (25 : ℝ) by exact_mod_cast (show (L : ℤ) ≤ 25 by omega)⟩]
    rfl
  rcases le_or_lt L 50 with hc50 | hc50
  · rw [findRank,
      if_neg (fun hc => by
        have hx : (L : ℝ) ≤ 10 := hc.2
        have hL : L ≤ 10 := by exact_mod_cast hx
        omega),
      findRank,
      if_neg (fun hc => by
        have hx : (L : ℝ) ≤ 25 := hc.2
        have hL : L ≤ 25 := by exact_mod_cast hx
        omega),
      findRank,
      if_pos ⟨show (26 : ℝ) ≤ (L : ℝ) by exact_mod_cast (show (26 : ℤ) ≤ L by omega),
        show (L : ℝ) ≤ (50 : ℝ) by exact_mod_cast (show (L : ℤ) ≤ 50 by omega)⟩]
    rfl
  rcases le_or_lt L 75 with hc75 | hc75
  · rw [findRank,
      if_neg (fun hc => by
        have hx : (L : ℝ) ≤ 10 := hc.2
        have hL : L ≤ 10 := by exact_mod_cast hx
        omega),
      findRank,
      if_neg (fun hc => by
        have hx : (L : ℝ) ≤ 25 := hc.2
        have hL : L ≤ 25 := by exact_mod_cast hx
        omega),
      findRank,
      if_neg (fun hc => by
        have hx : (L : ℝ) ≤ 50 := hc.2
        have hL : L ≤ 50 := by exact_mod_cast hx
        omega),
      findRank,
      if_pos ⟨show (51 : ℝ) ≤ (L : ℝ) by exact_mod_cast (show (51 : ℤ) ≤ L by omega),
        show (L : ℝ) ≤ (75 : ℝ) by exact_mod_cast (show (L : ℤ) ≤ 75 by omega)⟩]
    rfl
  rcases le_or_lt L 90 with hc90 | hc90
  · rw [findRank,
      if_neg (fun hc => by
        have hx : (L : ℝ) ≤ 10 := hc.2
        have hL : L ≤ 10 := by exact_mod_cast hx
        omega),
      findRank,
      if_neg (fun hc => by
        have hx : (L : ℝ) ≤ 25 := hc.2
        have hL : L ≤ 25 := by exact_mod_cast hx
        omega),
      findRank,
      if_neg (fun hc => by
        have hx : (L : ℝ) ≤ 50 := hc.2
        have hL : L ≤ 50 := by exact_mod_cast hx
        omega),
      findRank,
      if_neg (fun hc => by
        have hx : (L : ℝ) ≤ 75 := hc.2
        have hL : L ≤ 75 := by exact_mod_cast hx
        omega),
      findRank,
      if_pos ⟨show (76 : ℝ) ≤ (L : ℝ) by exact_mod_cast (show (76 : ℤ) ≤ L by omega),
        show (L : ℝ) ≤ (90 : ℝ) by exact_mod_cast (show (L : ℤ) ≤ 90 by omega)⟩]
    rfl
  · rw [findRank,
      if_neg (fun hc => by
        have hx : (L : ℝ) ≤ 10 := hc.2
        have hL : L ≤ 10 := by exact_mod_cast hx
        omega),
      findRank,
      if_neg (fun hc => by
        have hx : (L : ℝ) ≤ 25 := hc.2
        have hL : L ≤ 25 := by exact_mod_cast hx
        omega),
      findRank,
      if_neg (fun hc => by
        have hx : (L : ℝ) ≤ 50 := hc.2
        have hL : L ≤ 50 := by exact_mod_cast hx
        omega),
      findRank,
      if_neg (fun hc => by
        have hx : (L : ℝ) ≤ 75 := hc.2
        have hL : L ≤ 75 := by exact_mod_cast hx
        omega),
      findRank,
      if_neg (fun hc => by
        have hx : (L : ℝ) ≤ 90 := hc.2
        have hL : L ≤ 90 := by exact_mod_cast hx
        omega),
      findRank,
      if_pos ⟨show (91 : ℝ) ≤ (L : ℝ) by exact_mod_cast (show (91 : ℤ) ≤ L by omega),
        show (L : ℝ) ≤ (100 : ℝ) by exact_mod_cast (show (L : ℤ) ≤ 100 by omega)⟩]
    rfl

lemma getRank_default_below (x : ℝ) (hx : x < 1) : getRank x none = none := by
  show findRank x DEFAULT_RANKS = none
  rw [DEFAULT_RANKS,
    findRank, if_neg (fun hc => by have h : (1 : ℝ) ≤ x := hc.1; linarith),
    findRank, if_neg (fun hc => by have h : (11 : ℝ) ≤ x := hc.1; linarith),
    findRank, if_neg (fun hc => by have h : (26 : ℝ) ≤ x := hc.1; linarith),
    findRank, if_neg (fun hc => by have h : (51 : ℝ) ≤ x := hc.1; linarith),
    findRank, if_neg (fun hc => by have h : (76 : ℝ) ≤ x := hc.1; linarith),
    findRank, if_neg (fun hc => by have h : (91 : ℝ) ≤ x := hc.1; linarith),
    findRank]

lemma getRank_default_above (x : ℝ) (hx : 100 < x) : getRank x none = none := by
  show findRank x DEFAULT_RANKS = none
  rw [DEFAULT_RANKS,
    findRank, if_neg (fun hc => by have h : x ≤ (10 : ℝ) := hc.2; linarith),
    findRank, if_neg (fun hc => by have h : x ≤ (25 : ℝ) := hc.2; linarith),
    findRank, if_neg (fun hc => by have h : x ≤ (50 : ℝ) := hc.2; linarith),
    findRank, if_neg (fun hc => by have h : x ≤ (75 : ℝ) := hc.2; linarith),
    findRank, if_neg (fun hc => by have h : x ≤ (90 : ℝ) := hc.2; linarith),
    findRank, if_neg (fun hc => by have h : x ≤ (100 : ℝ) := hc.2; linarith),
    findRank]

/-- C8: `getRank` returns the first entry in table order whose
`[minLevel, maxLevel]` range contains the level, and `none` exactly when no
entry matches; on the default table the result is present for every integer
level in `[1, 100]` and absent for every level outside `[1, 100]`. -/
theorem claim_C8 :
    (∀ (level : ℝ) (ranks : List RankDefinition) (r : RankDefinition),
      getRank level (some ranks) = some r →
      ∃ i : ℕ, ∃ hi : i < ranks.length,
        ranks.get ⟨i, hi⟩ = r ∧ (r.minLevel ≤ level ∧ level ≤ r.maxLevel) ∧
        ∀ j : ℕ, ∀ hj : j < ranks.length, j < i →
          ¬ ((ranks.get ⟨j, hj⟩).minLevel ≤ level ∧
            level ≤ (ranks.get ⟨j, hj⟩).maxLevel)) ∧
    (∀ (level : ℝ) (ranks : List RankDefinition),
      getRank level (some ranks) = none ↔
        ∀ r ∈ ranks, ¬ (r.minLevel ≤ level ∧ level ≤ r.maxLevel)) ∧
    (∀ L : ℤ, 1 ≤ L → L ≤ 100 → (getRank (L : ℝ) none).isSome = true) ∧
    (∀ x : ℝ, x < 1 ∨ 100 < x → getRank x none = none) := by
  refine ⟨?_, ?_, getRank_default_cov, ?_⟩
  · intro level ranks r hr
    exact findRank_first level ranks r hr
  · intro level ranks
    exact findRank_eq_none_iff level ranks
  · intro x hx
    rcases hx with h | h
    · exact getRank_default_below x h
    · exact getRank_default_above x h

theorem claim_C8_witness :
    (getRank ((50 : ℤ) : ℝ) none).isSome = true ∧ getRank 101 none = none :=
  ⟨claim_C8.2.2.1 50 (by norm_num) (by norm_num),
    claim_C8.2.2.2 101 (Or.inr (by norm_num))⟩

/-- C9: the binary-search loop of `calculateLevel` terminates on every real
`totalXP`, every configuration and every search interval: the fuelled loop
completes (returning the loop's value) with `(high + 1 - low) + 1` steps of
fuel.  The finer `log2 maxLevel` iteration count is a resource bound outside
this embedding; termination itself is what is stated. -/
theorem claim_C9 (x : ℝ) (opts : LevelCalculationOptions) (low high cur : ℤ) :
    calcLoopFuel ((high + 1 - low).toNat + 1) x opts low high cur =
      some (calcLoop x opts low high cur) :=
  calcLoopFuel_correct _ x opts low high cur (by omega)

/-- C10: an explicitly supplied empty rank table yields `none` (and the
empty title) for every level — the built-in default table is used only when
the argument is omitted/`undefined` (`none`), as witnessed by level 1
resolving to the trainee rank there. -/
theorem claim_C10 :
    (∀ level : ℝ, getRank level (some []) = none) ∧
    (∀ level : ℝ, getRankTitle level (some []) = "") ∧
    getRank 1 none = some ⟨"trainee", 1, 10, "Trainee"⟩ := by
  refine ⟨fun level => rfl, fun level => rfl, ?_⟩
  show findRank 1 DEFAULT_RANKS = some ⟨"trainee", 1, 10, "Trainee"⟩
  rw [DEFAULT_RANKS, findRank, if_pos ⟨le_refl (1 : ℝ), by norm_num⟩]
